import Mathlib

namespace Scraper

/-- A well-formed media entry of the `GraphImages` array: one that
carries both keys the discovery loop reads without any guard —
`display_url` (scraper.py line 341) and `edge_liked_by["count"]`
(line 348).  `tags = none` models an entry whose `tags` key is absent or
not iterable, which makes the tag loop raise (caught locally at lines
338-339).  Entries possibly missing the unguarded keys are modelled by
`RawEntry` below; this structure is its well-formed fragment. -/
structure GraphImage where
  tags : Option (List String)
  display_url : String
  edge_liked_by_count : Int
deriving DecidableEq

/-- One row of the `meta` DataFrame, columns `image` and `likes`
(scraper.py line 313). -/
structure Row where
  image : String
  likes : Int
deriving DecidableEq

/-- A Python value as far as pandas index membership is concerned: the
DataFrame rows are labelled by integers (a RangeIndex), while the membership
probe `image_name` is a string. -/
inductive PyVal where
  | str : String → PyVal
  | int : Int → PyVal
deriving DecidableEq

/-- Python `==` on `PyVal`: values of different runtime types compare
unequal (Python `"x" == 0` is `False`). -/
def pyEq : PyVal → PyVal → Bool
  | .str a, .str b => a == b
  | .int a, .int b => a == b
  | _, _ => false

/-- Python `x in series` for a pandas Series tests membership among the
index labels, not among the column values (`Series.__contains__`). -/
def seriesContains (labels : List PyVal) (x : PyVal) : Bool :=
  labels.any (fun lbl => pyEq x lbl)

/-- The index labels of the `meta` DataFrame: `pd.read_csv` and
`pd.concat(..., ignore_index=True)` both leave an integer RangeIndex
`0, 1, ..., n-1`, and `drop_duplicates` keeps a subset of integer labels. -/
def metaIndex (meta : List Row) : List PyVal :=
  (List.range meta.length).map (fun i => PyVal.int (Int.ofNat i))

/-- Python `str.split(sep)` for a non-empty separator, over character
lists: scan left to right, cutting at each non-overlapping occurrence of
`sep`.  The first argument is fuel, always called with more fuel than the
length of the scanned list, so the fuel-exhausted branch is unreachable. -/
def pySplitAux (sep : List Char) : Nat → List Char → List Char → List (List Char)
  | 0, l, acc => [acc.reverse ++ l]
  | _ + 1, [], acc => [acc.reverse]
  | fuel + 1, c :: rest, acc =>
    if sep.isPrefixOf (c :: rest) then
      acc.reverse :: pySplitAux sep fuel (List.drop (sep.length - 1) rest) []
    else
      pySplitAux sep fuel rest (c :: acc)

/-- Python `s.split(sep)` for a non-empty separator string. -/
def pySplit (s sep : String) : List String :=
  if sep.toList.isEmpty then [s]
  else (pySplitAux sep.toList (s.toList.length + 1) s.toList []).map String.mk

/-- Python `s.endswith(suffix)`. -/
def pyEndsWith (s suf : String) : Bool :=
  List.isSuffixOf suf.toList s.toList

/-- The `image_name` derivation (scraper.py lines 341-343):
`split(".jpg?")[0]`, then `split("e35")[-1]`, then `split("/")[-1]`. -/
def deriveIdentifier (display_url : String) : String :=
  let s1 := (pySplit display_url ".jpg?").headD ""
  let s2 := (pySplit s1 "e35").getLastD ""
  (pySplit s2 "/").getLastD ""

/-- The body of `if tag not in all_tags: all_tags.append(str(tag))`
(scraper.py lines 331-337); `str` is the identity on the string tags the
documents carry. -/
def tagStep (all_tags : List String) (tag : String) : List String :=
  if tag ∈ all_tags then all_tags else all_tags ++ [tag]

/-- The tag loop over one entry (scraper.py lines 329-339): when the
`tags` key is missing the raised error is caught and the registry is left
unchanged. -/
def ingestTags (all_tags : List String) (img : GraphImage) : List String :=
  match img.tags with
  | none => all_tags
  | some ts => List.foldl tagStep all_tags ts

/-- Lines 341-351: derive the identifier and run the insertion guard
`if image_name not in meta["image"]`, which tests the string name against
the integer index labels of `meta`. -/
def ingestImage (meta : List Row) (img : GraphImage) : List Row :=
  let image_name := deriveIdentifier img.display_url
  if seriesContains (metaIndex meta) (PyVal.str image_name) then meta
  else meta ++ [⟨image_name, img.edge_liked_by_count⟩]

/-- Processing of a single entry of the `GraphImages` array: the tag loop
runs first (lines 329-339), then the inventory insertion (341-351). -/
def ingestEntry (st : List String × List Row) (img : GraphImage) : List String × List Row :=
  (ingestTags st.1 img, ingestImage st.2 img)

/-- One `.json` file (lines 323-351) in the well-formed fragment:
`none` models a file whose `json.load` fails (that call is not inside
any try, so the error propagates); `some doc` models a file that parses
into a well-formed `GraphImages` array.  Parsed-but-structurally-bad
files (missing `GraphImages` key or entry keys) are modelled by
`RawDoc`/`ingestRawFile` below. -/
def ingestFile (st : List String × List Row) (content : Option (List GraphImage)) :
    Except String (List String × List Row) :=
  match content with
  | none => .error "json.decoder.JSONDecodeError"
  | some doc => .ok (List.foldl ingestEntry st doc)

/-- A directory entry: the file name and the parse of its contents
(`none` when `json.load` would fail on it, `some doc` when it parses
into a well-formed `GraphImages` array). -/
structure DirFile where
  name : String
  content : Option (List GraphImage)
deriving DecidableEq

/-- The directory scan (lines 321-351): every file whose name ends in
`.json` is opened and ingested; a parse failure aborts the scan. -/
def ingestDir : List String × List Row → List DirFile → Except String (List String × List Row)
  | st, [] => .ok st
  | st, f :: rest =>
    if pyEndsWith f.name ".json" then
      match ingestFile st f.content with
      | .error e => .error e
      | .ok st2 => ingestDir st2 rest
    else ingestDir st rest

/-- One step of `meta.drop_duplicates(subset=["image"])` with the default
`keep="first"`: a row is kept only when no earlier kept row has the same
`image` value. -/
def ddStep (acc : List Row) (r : Row) : List Row :=
  if acc.any (fun x => x.image == r.image) then acc else acc ++ [r]

/-- `meta.drop_duplicates(subset=["image"])` (line 353): keeps the first
row of each `image` value, in order. -/
def dropDuplicatesByImage (meta : List Row) : List Row :=
  List.foldl ddStep [] meta

/-- `pd.read_csv` on a state file: raises `FileNotFoundError` when the
file is absent (there is no fallback in the source; the alternative
`pd.DataFrame(columns=cols)` on line 314 is commented out). -/
def pdReadCsv {α : Type} (content : Option α) : Except String α :=
  match content with
  | none => .error "FileNotFoundError"
  | some a => .ok a

/-- Process start (lines 313-315): `meta = pd.read_csv("image_data.csv")`
then `all_tags = list(pd.read_csv("tags.csv")["cycling_tags"])`. -/
def startup (imageCsv : Option (List Row)) (tagsCsv : Option (List String)) :
    Except String (List Row × List String) :=
  match pdReadCsv imageCsv with
  | .error e => .error e
  | .ok meta =>
    match pdReadCsv tagsCsv with
    | .error e => .error e
    | .ok tags => .ok (meta, tags)

/-- `list(np.random.choice(all_tags, 1))` (line 366) with the random draw
determinized as an arbitrary index: on an empty list `np.random.choice`
raises `ValueError`; otherwise it returns a one-element list holding the
drawn tag. -/
def npRandomChoice (l : List String) (idx : Nat) : Except String (List String) :=
  match l with
  | [] => .error "ValueError: a must be non-empty"
  | _ :: _ => .ok [l.getD (idx % l.length) ""]

/-- Python truthiness of an optional string (`None` and `""` are falsy). -/
def truthy : Option String → Bool
  | none => false
  | some s => !s.toList.isEmpty

/-- The command-line arguments the loop body reads or overwrites. -/
structure Args where
  usernames : List String
  destination : String
  maximum : Nat
  tag : Bool
  location : Bool
  search_location : Bool
  login_user : Option String
  login_pass : Option String
deriving DecidableEq

/-- Per-cycle oracle: the values the random generators produce this cycle
and the externally determined outcome of the fetch-client calls. -/
structure Oracle where
  sleepTime : Nat
  maxItems : Nat
  tagIdx : Nat
  authFails : Bool
  scrapeFails : Bool
deriving DecidableEq

/-- Observable events of one cycle, in program order. -/
inductive Event where
  | announceDelay : Nat → Event
  | sleep : Nat → Event
  | announceMax : Nat → Event
  | announceTarget : String → Event
  | authLogin : Event
  | authGuest : Event
  | scrapeTag : String → Event
  | scrapeFailCaught : Event
  | scrapeOther : Event
deriving DecidableEq

/-- The state and observations left by one completed cycle. -/
structure CycleResult where
  all_tags : List String
  meta : List Row
  savedTags : List String
  savedMeta : List Row
  scraperArgs : Args
  trace : List Event
deriving DecidableEq

/-- The argument overwrite of lines 363-367: `args.maximum` is redrawn,
`args.usernames` becomes the one-element selection and `args.destination`
is forced to the fixed output directory before the scraper is built. -/
def overwriteArgs (args : Args) (chosen : List String) (o : Oracle) : Args :=
  { args with maximum := o.maxItems, usernames := chosen, destination := "../img/" }

/-- The observable events up to and including authentication, in program
order (lines 359-375): delay announced, sleep, volume announced, target
announced, then the authentication call chosen by credential truthiness. -/
def preInvokeTrace (args2 : Args) (o : Oracle) (target : String) : List Event :=
  [Event.announceDelay o.sleepTime, Event.sleep o.sleepTime,
   Event.announceMax o.maxItems, Event.announceTarget target,
   if truthy args2.login_user && truthy args2.login_pass then
     Event.authLogin else Event.authGuest]

/-- The completed-cycle record for a given ingestion result, scraper
configuration and trace. -/
def mkResult (st : List String × List Row) (args2 : Args) (tr : List Event) : CycleResult :=
  ⟨st.1, dropDuplicatesByImage st.2, st.1, dropDuplicatesByImage st.2, args2, tr⟩

/-- One iteration of the `while True` loop (scraper.py lines 317-398):
INGEST (321-351), PERSIST (353-357), SCHEDULE (359-361), SELECT (363-368),
then scraper construction, authentication (372-375, not guarded by any
try) and the scrape branch (388-398, where only the hashtag branch is
wrapped in a try).  An `Except.error` result is an uncaught exception,
i.e. termination of the loop. -/
def cycle (args : Args) (all_tags : List String) (meta : List Row)
    (files : List DirFile) (o : Oracle) : Except String CycleResult :=
  match ingestDir (all_tags, meta) files with
  | .error e => .error e
  | .ok st =>
    match npRandomChoice st.1 o.tagIdx with
    | .error e => .error e
    | .ok chosen =>
      if o.authFails then .error "authentication failure"
      else if (overwriteArgs args chosen o).tag then
        .ok (mkResult st (overwriteArgs args chosen o)
              (preInvokeTrace (overwriteArgs args chosen o) o (chosen.headD "")
                ++ if o.scrapeFails then
                     [Event.scrapeTag (chosen.headD ""), Event.scrapeFailCaught]
                   else [Event.scrapeTag (chosen.headD "")]))
      else if (overwriteArgs args chosen o).location then
        if o.scrapeFails then .error "scrape_location failure"
        else .ok (mkResult st (overwriteArgs args chosen o)
              (preInvokeTrace (overwriteArgs args chosen o) o (chosen.headD "")
                ++ [Event.scrapeOther]))
      else if (overwriteArgs args chosen o).search_location then
        if o.scrapeFails then .error "search_locations failure"
        else .ok (mkResult st (overwriteArgs args chosen o)
              (preInvokeTrace (overwriteArgs args chosen o) o (chosen.headD "")
                ++ [Event.scrapeOther]))
      else
        if o.scrapeFails then .error "scrape failure"
        else .ok (mkResult st (overwriteArgs args chosen o)
              (preInvokeTrace (overwriteArgs args chosen o) o (chosen.headD "")
                ++ [Event.scrapeOther]))

/-- Whether an `Except` value is a success. -/
def exOk {α : Type} : Except String α → Bool
  | .ok _ => true
  | .error _ => false

/-- The success payload of an `Except` value, if any. -/
def okPart {α : Type} : Except String α → Option α
  | .ok a => some a
  | .error _ => none

/-- The event trace of a cycle outcome (empty on an uncaught error). -/
def traceOf : Except String CycleResult → List Event
  | .ok r => r.trace
  | .error _ => []

/-- Whether an event is the sleep suspension. -/
def isSleepEvent : Event → Bool
  | .sleep _ => true
  | _ => false

/-- Whether an event announces the next fetch target. -/
def isAnnounceTargetEvent : Event → Bool
  | .announceTarget _ => true
  | _ => false

/-- Whether some target announcement occurs strictly before the first
sleep suspension of a trace. -/
def targetAnnouncedBeforeSleep (tr : List Event) : Bool :=
  (tr.takeWhile (fun e => !isSleepEvent e)).any isAnnounceTargetEvent

/-- Modelled from the spec (first-seen order): the sublist of `ts` of
tags not already in `seen`, first occurrences only, in order of first
appearance.  Used as the refinement target for the tag-registry fold. -/
def newTagsOfList (seen : List String) : List String → List String
  | [] => []
  | t :: ts => if t ∈ seen then newTagsOfList seen ts
               else t :: newTagsOfList (seen ++ [t]) ts

/-- Modelled from the spec (first-seen order): the new tags a document
contributes to a registry `seen`, in order of first appearance. -/
def newTagsOfDoc (seen : List String) : List GraphImage → List String
  | [] => []
  | img :: rest =>
    match img.tags with
    | none => newTagsOfDoc seen rest
    | some ts =>
      let n := newTagsOfList seen ts
      n ++ newTagsOfDoc (seen ++ n) rest

/-- Concrete arguments: tag mode, with credentials. -/
def argsTag : Args :=
  { usernames := ["cli_user"], destination := "./", maximum := 0, tag := true,
    location := false, search_location := false,
    login_user := some "u", login_pass := some "p" }

/-- Concrete oracle: authentication succeeds, the scrape call fails. -/
def oracleScrapeFail : Oracle :=
  { sleepTime := 7, maxItems := 3, tagIdx := 0, authFails := false, scrapeFails := true }

/-- Concrete oracle: authentication fails. -/
def oracleAuthFail : Oracle :=
  { sleepTime := 7, maxItems := 3, tagIdx := 0, authFails := true, scrapeFails := false }

/-- Concrete oracle: all external calls succeed. -/
def oracleAllOk : Oracle :=
  { sleepTime := 7, maxItems := 3, tagIdx := 0, authFails := false, scrapeFails := false }

/-- Two concrete entries with the same display URL but different
popularity counts. -/
def entryA1 : GraphImage := ⟨none, "https://cdn/a.jpg?e35=1", 5⟩

/-- Second sighting of the same media item, with a later count. -/
def entryA2 : GraphImage := ⟨none, "https://cdn/a.jpg?e35=1", 9⟩

/-- The two entries of the concrete ingestion scenario. -/
def entryX : GraphImage := ⟨some ["bike", "road"], "https://cdn/x123.jpg?e35=1", 3⟩

/-- The tagless entry of the concrete ingestion scenario. -/
def entryY : GraphImage := ⟨none, "https://cdn/y456.jpg?e35=2", 4⟩

/-- A raw media entry as `json.load` hands it over, before any key
access: each field records whether the corresponding key is present.
Only the `tags` access (line 330) is guarded; `display_url` (line 341)
and `edge_liked_by["count"]` (line 348) raise an uncaught `KeyError`
when absent. -/
structure RawEntry where
  tags : Option (List String)
  display_url : Option String
  edge_liked_by_count : Option Int
deriving DecidableEq

/-- A raw `.json` file: unparseable (`json.load` raises, line 326),
parsed but missing the `GraphImages` key (`f_dict["GraphImages"]`
raises, line 328), or a list of raw entries. -/
inductive RawDoc where
  | unparseable : RawDoc
  | missingGraphImages : RawDoc
  | entries : List RawEntry → RawDoc
deriving DecidableEq

/-- Lines 341-351 on a raw entry once `display_url` is in hand: the
identifier is derived, and the popularity count is read only inside the
insertion branch (line 348), after the guard. -/
def ingestRawImage (meta : List Row) (url : String) (cnt : Option Int) :
    Except String (List Row) :=
  let image_name := deriveIdentifier url
  if seriesContains (metaIndex meta) (PyVal.str image_name) then .ok meta
  else
    match cnt with
    | none => .error "KeyError: edge_liked_by"
    | some c => .ok (meta ++ [⟨image_name, c⟩])

/-- One raw entry (lines 329-351): the tag loop runs first, with its
absent-key failure caught; then the unguarded `display_url` access; then
the insertion with the unguarded count access. -/
def ingestRawEntry (st : List String × List Row) (e : RawEntry) :
    Except String (List String × List Row) :=
  let tags1 := match e.tags with
    | none => st.1
    | some ts => List.foldl tagStep st.1 ts
  match e.display_url with
  | none => .error "KeyError: display_url"
  | some url =>
    match ingestRawImage st.2 url e.edge_liked_by_count with
    | .error err => .error err
    | .ok meta2 => .ok (tags1, meta2)

/-- The raw entries of one document, in order; any uncaught key error
aborts the document (and with it the scan and the loop). -/
def ingestRawEntries (st : List String × List Row) :
    List RawEntry → Except String (List String × List Row)
  | [] => .ok st
  | e :: rest =>
    match ingestRawEntry st e with
    | .error err => .error err
    | .ok st2 => ingestRawEntries st2 rest

/-- One raw `.json` file (lines 323-351), all error paths included. -/
def ingestRawFile (st : List String × List Row) :
    RawDoc → Except String (List String × List Row)
  | .unparseable => .error "json.decoder.JSONDecodeError"
  | .missingGraphImages => .error "KeyError: GraphImages"
  | .entries es => ingestRawEntries st es

/-- The integer index labels of `meta` never match a string probe, so the
insertion guard of lines 346-351 never fires. -/
theorem seriesContains_metaIndex (meta : List Row) (s : String) :
    seriesContains (metaIndex meta) (PyVal.str s) = false := by
  simp only [seriesContains, List.any_eq_false]
  intro x hx
  simp only [metaIndex, List.mem_map] at hx
  obtain ⟨i, -, rfl⟩ := hx
  simp [pyEq]

/-- Consequently every entry is appended to the in-memory inventory. -/
theorem ingestImage_append (meta : List Row) (img : GraphImage) :
    ingestImage meta img = meta ++ [⟨deriveIdentifier img.display_url, img.edge_liked_by_count⟩] := by
  simp [ingestImage, seriesContains_metaIndex]

/-- On a well-formed entry (both unguarded keys present) the raw
ingestion agrees with the well-formed-fragment ingestion, and in
particular never raises. -/
theorem ingestRawEntry_wellFormed (st : List String × List Row)
    (t : Option (List String)) (url : String) (c : Int) :
    ingestRawEntry st ⟨t, some url, some c⟩ = .ok (ingestEntry st ⟨t, url, c⟩) := by
  cases t <;>
    simp [ingestRawEntry, ingestRawImage, ingestEntry, ingestImage, ingestTags,
          seriesContains_metaIndex]

/-- The tag-loop fold equals the registry followed by the first-seen
dedup of the new tags. -/
theorem foldl_tagStep_eq (ts : List String) (seen : List String) :
    List.foldl tagStep seen ts = seen ++ newTagsOfList seen ts := by
  induction ts generalizing seen with
  | nil => simp [newTagsOfList]
  | cons t ts ih =>
    by_cases h : t ∈ seen
    · simp [List.foldl, tagStep, newTagsOfList, h, ih]
    · simp only [List.foldl, tagStep, newTagsOfList, h, if_neg, ite_false]
      rw [ih (seen ++ [t])]
      simp [h]

/-- The first-seen dedup preserves the no-duplicates invariant. -/
theorem nodup_newTagsOfList (ts : List String) (seen : List String) (h : seen.Nodup) :
    (seen ++ newTagsOfList seen ts).Nodup := by
  induction ts generalizing seen with
  | nil => simpa [newTagsOfList]
  | cons t ts ih =>
    by_cases ht : t ∈ seen
    · simpa [newTagsOfList, ht] using ih seen h
    · have h2 : (seen ++ [t]).Nodup := by
        simp [List.nodup_append, h, ht]
      have h3 := ih (seen ++ [t]) h2
      simpa [newTagsOfList, ht] using h3

/-- The registry component of the per-document fold is the old registry
followed by the document's new tags in first-seen order. -/
theorem foldl_ingestEntry_fst (doc : List GraphImage) (st : List String × List Row) :
    (List.foldl ingestEntry st doc).1 = st.1 ++ newTagsOfDoc st.1 doc := by
  induction doc generalizing st with
  | nil => simp [newTagsOfDoc]
  | cons img rest ih =>
    rw [List.foldl_cons, ih]
    cases himg : img.tags with
    | none => simp [ingestEntry, ingestTags, newTagsOfDoc, himg]
    | some ts =>
      simp [ingestEntry, ingestTags, newTagsOfDoc, himg, foldl_tagStep_eq]

/-- Document-level no-duplicates preservation. -/
theorem nodup_newTagsOfDoc (doc : List GraphImage) (seen : List String) (h : seen.Nodup) :
    (seen ++ newTagsOfDoc seen doc).Nodup := by
  induction doc generalizing seen with
  | nil => simpa [newTagsOfDoc]
  | cons img rest ih =>
    cases himg : img.tags with
    | none => simpa [newTagsOfDoc, himg] using ih seen h
    | some ts =>
      have h1 := nodup_newTagsOfList ts seen h
      have h2 := ih (seen ++ newTagsOfList seen ts) h1
      simpa [newTagsOfDoc, himg] using h2

/-- Characterization of `drop_duplicates(keep="first")` started from an
arbitrary accumulator: the rows with a given `image` value in the result
are the ones already kept, plus the first such row of the remaining input
when none was kept yet. -/
theorem ddFold_filter (l : List Row) (acc : List Row) (s : String) :
    (List.foldl ddStep acc l).filter (fun r => r.image == s)
      = acc.filter (fun r => r.image == s)
        ++ (if acc.any (fun r => r.image == s) then []
            else (l.find? (fun r => r.image == s)).toList) := by
  induction l generalizing acc with
  | nil => simp
  | cons r rs ih =>
    rw [List.foldl_cons, ih]
    by_cases hr : r.image = s
    · subst hr
      by_cases hacc : acc.any (fun x => x.image == r.image) = true
      · simp [ddStep, hacc, List.find?_cons_of_pos]
      · have hacc2 : acc.any (fun x => x.image == r.image) = false := by
          simpa using hacc
        simp [ddStep, hacc2, List.find?_cons_of_pos, List.filter_append, List.any_append]
    · have hPr : (r.image == s) = false := by simpa using hr
      by_cases hg : acc.any (fun x => x.image == r.image) = true
      · simp [ddStep, hg, List.find?_cons_of_neg, hPr]
      · have hg2 : acc.any (fun x => x.image == r.image) = false := by simpa using hg
        simp [ddStep, hg2, List.find?_cons_of_neg, hPr, List.filter_append, List.any_append]

/-- `drop_duplicates(keep="first")` leaves no duplicate `image` values. -/
theorem ddFold_nodup (l acc : List Row) (h : (acc.map Row.image).Nodup) :
    ((List.foldl ddStep acc l).map Row.image).Nodup := by
  induction l generalizing acc with
  | nil => simpa
  | cons r rs ih =>
    rw [List.foldl_cons]
    by_cases hg : acc.any (fun x => x.image == r.image) = true
    · simpa [ddStep, hg] using ih acc h
    · have hg2 : acc.any (fun x => x.image == r.image) = false := by simpa using hg
      have hmem : r.image ∉ acc.map Row.image := by
        intro hm
        obtain ⟨x, hx, he⟩ := List.mem_map.mp hm
        have : acc.any (fun x => x.image == r.image) = true :=
          List.any_eq_true.mpr ⟨x, hx, by simp [he]⟩
        simp [this] at hg2
      have h2 : ((acc ++ [r]).map Row.image).Nodup := by
        simp [List.nodup_append, h, hmem]
      simpa [ddStep, hg2] using ih (acc ++ [r]) h2

/-- Inside a successful directory scan the tag registry stays
duplicate-free and the pre-existing registry survives as the initial
segment of the result. -/
theorem ingestDir_nodup_monotone (files : List DirFile) :
    ∀ st st2 : List String × List Row, ingestDir st files = .ok st2 → st.1.Nodup →
      st2.1.Nodup ∧ st2.1.take st.1.length = st.1 := by
  induction files with
  | nil =>
    intro st st2 h hn
    simp only [ingestDir, Except.ok.injEq] at h
    subst h
    exact ⟨hn, by simp⟩
  | cons f rest ih =>
    intro st st2 h hn
    by_cases hj : pyEndsWith f.name ".json" = true
    · cases hc : f.content with
      | none => simp [ingestDir, hj, hc, ingestFile] at h
      | some doc =>
        simp only [ingestDir, hj, if_true, hc, ingestFile] at h
        have hfst : (List.foldl ingestEntry st doc).1 = st.1 ++ newTagsOfDoc st.1 doc :=
          foldl_ingestEntry_fst doc st
        have hn1 : (List.foldl ingestEntry st doc).1.Nodup := by
          rw [hfst]; exact nodup_newTagsOfDoc doc st.1 hn
        obtain ⟨hnodup, htake⟩ := ih (List.foldl ingestEntry st doc) st2 h hn1
        refine ⟨hnodup, ?_⟩
        have hle : st.1.length ≤ (List.foldl ingestEntry st doc).1.length := by
          rw [hfst]; simp
        calc st2.1.take st.1.length
            = (st2.1.take (List.foldl ingestEntry st doc).1.length).take st.1.length := by
              rw [List.take_take, min_eq_left hle]
          _ = (List.foldl ingestEntry st doc).1.take st.1.length := by rw [htake]
          _ = st.1 := by rw [hfst, List.take_left]
    · have hj2 : pyEndsWith f.name ".json" = false := by simpa using hj
      simp only [ingestDir, hj2, Bool.false_eq_true, if_false] at h
      exact ih st st2 h hn

/-- A `.json` file whose parse fails makes the whole directory scan fail. -/
theorem ingestDir_error_of_malformed (files : List DirFile) :
    ∀ st : List String × List Row, ∀ f : DirFile, f ∈ files →
      pyEndsWith f.name ".json" = true → f.content = none →
      exOk (ingestDir st files) = false := by
  induction files with
  | nil => intro st f hf _ _; simp at hf
  | cons g rest ih =>
    intro st f hf hj hn
    rcases List.mem_cons.mp hf with rfl | hf2
    · simp [ingestDir, hj, hn, ingestFile, exOk]
    · by_cases hgj : pyEndsWith g.name ".json" = true
      · cases hc : g.content with
        | none => simp [ingestDir, hgj, hc, ingestFile, exOk]
        | some doc =>
          simp only [ingestDir, hgj, if_true, hc, ingestFile]
          exact ih _ f hf2 hj hn
      · have hgj2 : pyEndsWith g.name ".json" = false := by simpa using hgj
        simp only [ingestDir, hgj2, Bool.false_eq_true, if_false]
        exact ih st f hf2 hj hn

/-- The drawn element of a nonempty registry is a member of it. -/
theorem contains_getD_mod (l : List String) (i : Nat) (h : l ≠ []) :
    l.contains (l.getD (i % l.length) "") = true := by
  have hlen : 0 < l.length := List.length_pos.mpr h
  have hi : i % l.length < l.length := Nat.mod_lt _ hlen
  rw [List.getD_eq_getElem l "" hi]
  simp

/-- A successful draw returns a one-element list holding a registry
member. -/
theorem npRandomChoice_ok (l : List String) (i : Nat) (chosen : List String)
    (h : npRandomChoice l i = .ok chosen) :
    ∃ t, chosen = [t] ∧ l.contains t = true := by
  cases l with
  | nil => simp [npRandomChoice] at h
  | cons a as =>
    simp only [npRandomChoice, Except.ok.injEq] at h
    exact ⟨(a :: as).getD (i % (a :: as).length) "", h.symm,
      contains_getD_mod (a :: as) i (by simp)⟩

/-- Success of an `Except` is existence of an `ok` payload. -/
theorem exOk_eq_true_iff {α : Type} (x : Except String α) : exOk x = true ↔ ∃ a, x = .ok a := by
  cases x <;> simp [exOk]

/-- Shape of every completed cycle: the trace opens with the delay
announcement, the sleep, the volume announcement and then the target
announcement; no target is announced before the sleep; the scraper
configuration carries the forced destination and exactly the one selected
tag, drawn from the persisted registry. -/
theorem cycle_ok_shape (args : Args) (tags : List String) (meta : List Row)
    (files : List DirFile) (o : Oracle) (r : CycleResult)
    (h : cycle args tags meta files o = .ok r) :
    ∃ t, r.trace.take 4 = [Event.announceDelay o.sleepTime, Event.sleep o.sleepTime,
          Event.announceMax o.maxItems, Event.announceTarget t]
      ∧ targetAnnouncedBeforeSleep r.trace = false
      ∧ r.scraperArgs.destination = "../img/"
      ∧ r.scraperArgs.usernames = [t]
      ∧ r.savedTags.contains t = true := by
  unfold cycle at h
  split at h
  · exact Except.noConfusion h
  · rename_i st hing
    split at h
    · exact Except.noConfusion h
    · rename_i chosen hch
      obtain ⟨t, rfl, hmem⟩ := npRandomChoice_ok st.1 o.tagIdx chosen hch
      split at h
      · exact Except.noConfusion h
      · split at h
        · cases h
          exact ⟨t, by simp [mkResult, preInvokeTrace],
            by simp [mkResult, preInvokeTrace, targetAnnouncedBeforeSleep,
                     isSleepEvent, isAnnounceTargetEvent],
            by simp [mkResult, overwriteArgs],
            by simp [mkResult, overwriteArgs],
            by simpa [mkResult] using hmem⟩
        · split at h
          · split at h
            · exact Except.noConfusion h
            · cases h
              exact ⟨t, by simp [mkResult, preInvokeTrace],
                by simp [mkResult, preInvokeTrace, targetAnnouncedBeforeSleep,
                         isSleepEvent, isAnnounceTargetEvent],
                by simp [mkResult, overwriteArgs],
                by simp [mkResult, overwriteArgs],
                by simpa [mkResult] using hmem⟩
          · split at h
            · split at h
              · exact Except.noConfusion h
              · cases h
                exact ⟨t, by simp [mkResult, preInvokeTrace],
                  by simp [mkResult, preInvokeTrace, targetAnnouncedBeforeSleep,
                           isSleepEvent, isAnnounceTargetEvent],
                  by simp [mkResult, overwriteArgs],
                  by simp [mkResult, overwriteArgs],
                  by simpa [mkResult] using hmem⟩
            · split at h
              · exact Except.noConfusion h
              · cases h
                exact ⟨t, by simp [mkResult, preInvokeTrace],
                  by simp [mkResult, preInvokeTrace, targetAnnouncedBeforeSleep,
                           isSleepEvent, isAnnounceTargetEvent],
                  by simp [mkResult, overwriteArgs],
                  by simp [mkResult, overwriteArgs],
                  by simpa [mkResult] using hmem⟩

/-- The command-line `--destination` and positional usernames have no
influence on the loop body: overwriting them in the input arguments does
not change the cycle at all. -/
theorem cycle_frame (args : Args) (tags : List String) (meta : List Row)
    (files : List DirFile) (o : Oracle) (d : String) (u : List String) :
    cycle { args with destination := d, usernames := u } tags meta files o
      = cycle args tags meta files o := by
  cases args
  rfl

/-- Claim C1 (amended): in the fetch step only a failure of the
scrape-by-tag operation (the hashtag branch, the one wrapped in a
try/except) is caught locally, so the cycle still completes to the next
INGEST; a failure of the authentication call is not caught and terminates
the Discovery Loop. -/
theorem fetch_failure_isolation (args : Args) (tags : List String) (meta : List Row)
    (files : List DirFile) (o : Oracle) (st : List String × List Row) (chosen : List String)
    (h1 : ingestDir (tags, meta) files = .ok st)
    (h2 : npRandomChoice st.1 o.tagIdx = .ok chosen) :
    (o.authFails = false → args.tag = true → exOk (cycle args tags meta files o) = true)
  ∧ (o.authFails = true → exOk (cycle args tags meta files o) = false) := by
  constructor
  · intro ha ht
    simp [cycle, h1, h2, ha, ht, overwriteArgs, exOk]
  · intro ha
    simp [cycle, h1, h2, ha, exOk]

/-- Witness for C1: with one registered tag and an empty directory, a
cycle whose scrape call fails still completes, while a cycle whose
authentication fails terminates the loop. -/
theorem fetch_failure_isolation_witness :
    exOk (cycle argsTag ["cycling"] [] [] oracleScrapeFail) = true
  ∧ exOk (cycle argsTag ["cycling"] [] [] oracleAuthFail) = false :=
  ⟨(fetch_failure_isolation argsTag ["cycling"] [] [] oracleScrapeFail
      (["cycling"], []) ["cycling"] rfl rfl).1 rfl rfl,
   (fetch_failure_isolation argsTag ["cycling"] [] [] oracleAuthFail
      (["cycling"], []) ["cycling"] rfl rfl).2 rfl⟩

/-- Counterexample to C1 as stated: an authentication failure during the
fetch invocation step is not caught — the cycle ends in an uncaught
error, terminating the Discovery Loop. -/
theorem fetch_auth_failure_counterexample :
    cycle argsTag ["cycling"] [] [] oracleAuthFail = .error "authentication failure" := rfl

/-- Claim C2 (amended): on a registry of exactly one tag the Target
Selector always returns that tag; on an empty registry `np.random.choice`
raises `ValueError`, which nothing catches, so the fetch step is not
merely skipped — the cycle errors out and the loop terminates. -/
theorem target_selector_singleton_and_empty (t : String) (idx : Nat)
    (args : Args) (meta : List Row) (o : Oracle) :
    npRandomChoice [t] idx = .ok [t]
  ∧ exOk (npRandomChoice [] idx) = false
  ∧ exOk (cycle args [] meta [] o) = false := by
  refine ⟨?_, rfl, ?_⟩
  · simp [npRandomChoice, Nat.mod_one]
  · simp [cycle, ingestDir, npRandomChoice, exOk]

/-- Counterexample to C2 as stated: invoked on an empty Tag Registry the
selector raises, and the raise propagates out of the cycle. -/
theorem target_selector_empty_counterexample :
    npRandomChoice [] 0 = .error "ValueError: a must be non-empty"
  ∧ cycle argsTag [] [] [] oracleAllOk = .error "ValueError: a must be non-empty" :=
  ⟨rfl, rfl⟩

/-- Claim C3 (amended): the persisted Media Inventory holds exactly one
record per identifier, and that record carries the popularity count of
the FIRST-seen entry with that identifier (`drop_duplicates` keeps the
first occurrence), not the last-seen one. -/
theorem persist_first_write_wins (meta : List Row) (s : String) :
    (dropDuplicatesByImage meta).filter (fun r => r.image == s)
      = (meta.find? (fun r => r.image == s)).toList
  ∧ ((dropDuplicatesByImage meta).map Row.image).Nodup := by
  constructor
  · have h := ddFold_filter meta [] s
    simpa [dropDuplicatesByImage] using h
  · exact ddFold_nodup meta [] (by simp)

/-- Counterexample to C3 as stated: two ingested entries share an
identifier with counts 5 then 9; the persisted record keeps the first
count 5, not the last-seen count 9. -/
theorem persist_last_write_wins_counterexample :
    dropDuplicatesByImage (List.foldl ingestEntry (([] : List String), ([] : List Row))
        [entryA1, entryA2]).2
      = [⟨"a", 5⟩]
  ∧ (⟨"a", 5⟩ : Row) ≠ ⟨"a", 9⟩ :=
  ⟨by decide, by decide⟩

/-- Claim C4 (amended): a file that fails to parse as valid JSON is not
skipped — the uncaught parse error aborts the directory scan and
terminates the loop; a parsed document missing the `GraphImages` key, or
an entry missing `display_url` or the `edge_liked_by` count, raises an
uncaught `KeyError` as well; only the per-entry tag-list access is
guarded, so an entry with a missing tag list contributes no tags but
still contributes its media record. -/
theorem ingest_malformed_document (st : List String × List Row) (files : List DirFile)
    (f : DirFile) (hf : f ∈ files) (hjson : pyEndsWith f.name ".json" = true)
    (hbad : f.content = none) :
    exOk (ingestDir st files) = false
  ∧ (∀ st2 : List String × List Row,
      exOk (ingestRawFile st2 RawDoc.missingGraphImages) = false)
  ∧ (∀ st2 : List String × List Row, ∀ ts : Option (List String), ∀ cnt : Option Int,
      exOk (ingestRawEntry st2 ⟨ts, none, cnt⟩) = false)
  ∧ (∀ st2 : List String × List Row, ∀ ts : Option (List String), ∀ url : String,
      exOk (ingestRawEntry st2 ⟨ts, some url, none⟩) = false)
  ∧ (∀ st2 : List String × List Row, ∀ url : String, ∀ c : Int,
      ingestRawEntry st2 ⟨none, some url, some c⟩
        = .ok (st2.1, st2.2 ++ [⟨deriveIdentifier url, c⟩])) := by
  refine ⟨ingestDir_error_of_malformed files st f hf hjson hbad, fun _ => rfl, ?_, ?_, ?_⟩
  · intro st2 ts cnt
    cases ts <;> rfl
  · intro st2 ts url
    cases ts <;>
      simp [ingestRawEntry, ingestRawImage, seriesContains_metaIndex, exOk]
  · intro st2 url c
    rw [ingestRawEntry_wellFormed]
    simp [ingestEntry, ingestTags, ingestImage_append]

/-- Witness for C4: one unparseable `.json` file aborts the scan; a
document without a `GraphImages` key and entries missing `display_url`
or the count each raise; a tagless well-formed entry still yields its
record. -/
theorem ingest_malformed_document_witness :
    exOk (ingestDir (["cycling"], []) [⟨"bad.json", none⟩]) = false
  ∧ exOk (ingestRawFile (["cycling"], []) RawDoc.missingGraphImages) = false
  ∧ exOk (ingestRawEntry (["cycling"], []) ⟨some ["bike"], none, some 5⟩) = false
  ∧ exOk (ingestRawEntry (["cycling"], []) ⟨none, some "https://cdn/a.jpg?e35=1", none⟩) = false
  ∧ ingestRawEntry (["cycling"], []) ⟨none, some "https://cdn/a.jpg?e35=1", some 5⟩
      = .ok (["cycling"], [⟨"a", 5⟩]) := by
  have h := ingest_malformed_document (["cycling"], []) [⟨"bad.json", none⟩]
    ⟨"bad.json", none⟩ (by simp) (by decide) rfl
  refine ⟨h.1, h.2.1 _, h.2.2.1 _ _ _, h.2.2.2.1 _ _ _, ?_⟩
  rw [h.2.2.2.2 (["cycling"], ([] : List Row)) "https://cdn/a.jpg?e35=1" 5]
  rfl

/-- Counterexample to C4 as stated: the malformed file is not skipped;
the scan raises the JSON decode error. -/
theorem ingest_malformed_document_counterexample :
    ingestDir (["cycling"], []) [⟨"bad.json", none⟩]
      = .error "json.decoder.JSONDecodeError" := rfl

/-- Claim C5 (amended): startup loads both state files and succeeds when
both exist; when either state file is absent, `pd.read_csv` raises and
startup fails — no empty-state initialization happens. -/
theorem startup_loads_state_files (m : List Row) (t : List String) :
    startup (some m) (some t) = .ok (m, t)
  ∧ exOk (startup (none : Option (List Row)) (some t)) = false
  ∧ exOk (startup (some m) (none : Option (List String))) = false :=
  ⟨rfl, rfl, rfl⟩

/-- Counterexample to C5 as stated: with no persisted state present,
startup raises instead of initializing empty state. -/
theorem startup_missing_state_counterexample :
    startup (none : Option (List Row)) (none : Option (List String))
      = .error "FileNotFoundError" := rfl

/-- Claim C6: ingesting the two-entry document of the concrete scenario
appends exactly `bike` and `road` to any registry not already holding
them (order preserved after the pre-existing tags) and appends inventory
records with identifiers `x123` and `y456`, as derived by the
query-marker / size-marker / final-segment stripping. -/
theorem ingest_concrete_scenario (pre : List String) (meta0 : List Row) (c1 c2 : Int)
    (hb : "bike" ∉ pre) (hr : "road" ∉ pre) :
    List.foldl ingestEntry (pre, meta0)
      [⟨some ["bike", "road"], "https://cdn/x123.jpg?e35=1", c1⟩,
       ⟨none, "https://cdn/y456.jpg?e35=2", c2⟩]
    = (pre ++ ["bike", "road"], meta0 ++ [⟨"x123", c1⟩, ⟨"y456", c2⟩]) := by
  have hx : deriveIdentifier "https://cdn/x123.jpg?e35=1" = "x123" := by decide
  have hy : deriveIdentifier "https://cdn/y456.jpg?e35=2" = "y456" := by decide
  have hrb : ("road" : String) ≠ "bike" := by decide
  simp [List.foldl, ingestEntry, ingestTags, tagStep, ingestImage_append, hx, hy,
        hb, hr, hrb, List.mem_append]

/-- Witness for C6: the scenario run from empty state. -/
theorem ingest_concrete_scenario_witness :
    ("bike" ∉ ([] : List String))
  ∧ List.foldl ingestEntry (([] : List String), ([] : List Row))
      [⟨some ["bike", "road"], "https://cdn/x123.jpg?e35=1", 3⟩,
       ⟨none, "https://cdn/y456.jpg?e35=2", 4⟩]
    = (["bike", "road"], [⟨"x123", 3⟩, ⟨"y456", 4⟩]) :=
  ⟨by decide, by
    have h := ingest_concrete_scenario [] [] 3 4 (by decide) (by decide)
    simpa using h⟩

/-- Claim C7: starting from a duplicate-free registry, document ingestion
appends exactly the new tags in first-seen order (the old registry is an
initial segment of the new one, so nothing is ever removed) and keeps the
registry duplicate-free; the same holds across a whole successful
directory scan. -/
theorem tag_registry_invariants (tags : List String) (meta : List Row)
    (doc : List GraphImage) (files : List DirFile) (st2 : List String × List Row)
    (h1 : tags.Nodup) (h2 : ingestDir (tags, meta) files = .ok st2) :
    (List.foldl ingestEntry (tags, meta) doc).1 = tags ++ newTagsOfDoc tags doc
  ∧ (List.foldl ingestEntry (tags, meta) doc).1.Nodup
  ∧ st2.1.Nodup ∧ st2.1.take tags.length = tags := by
  have ha := foldl_ingestEntry_fst doc (tags, meta)
  have hb : (List.foldl ingestEntry (tags, meta) doc).1.Nodup := by
    rw [ha]; exact nodup_newTagsOfDoc doc tags h1
  obtain ⟨hc, hd⟩ := ingestDir_nodup_monotone files (tags, meta) st2 h2 h1
  exact ⟨ha, hb, hc, hd⟩

/-- Witness for C7: one document with tags `bike` and `road` ingested
over the registry `["cycling"]`. -/
theorem tag_registry_invariants_witness :
    (List.foldl ingestEntry (["cycling"], ([] : List Row)) [entryX]).1
        = ["cycling"] ++ newTagsOfDoc ["cycling"] [entryX]
  ∧ (List.foldl ingestEntry (["cycling"], ([] : List Row)) [entryX]).1.Nodup
  ∧ ((["cycling", "bike", "road"], [(⟨"x123", 3⟩ : Row)]) : List String × List Row).1.Nodup
  ∧ ((["cycling", "bike", "road"], [(⟨"x123", 3⟩ : Row)]) : List String × List Row).1.take
      (["cycling"] : List String).length = ["cycling"] :=
  tag_registry_invariants ["cycling"] [] [entryX] [⟨"m.json", some [entryX]⟩]
    (["cycling", "bike", "road"], [⟨"x123", 3⟩]) (by decide) rfl

/-- Claim C8 (amended): the insertion guard compares the string
identifier against the integer index labels of the DataFrame, never
matches, and therefore never blocks an insert — every ingested entry is
appended, so the in-memory inventory can transiently hold duplicate
identifiers; at most one record per identifier holds only for the
persisted inventory produced by the PERSIST dedup. -/
theorem media_inventory_guard_ineffective (meta : List Row) (img : GraphImage) :
    ingestImage meta img
      = meta ++ [⟨deriveIdentifier img.display_url, img.edge_liked_by_count⟩]
  ∧ ((dropDuplicatesByImage meta).map Row.image).Nodup :=
  ⟨ingestImage_append meta img, ddFold_nodup meta [] (by simp)⟩

/-- Counterexample to C8 as stated: ingesting two entries with the same
identifier into an empty inventory leaves two records with that
identifier in the Media Inventory. -/
theorem media_inventory_duplicates_counterexample :
    (List.foldl ingestEntry (([] : List String), ([] : List Row)) [entryA1, entryA2]).2
      = [⟨"a", 5⟩, ⟨"a", 9⟩]
  ∧ ¬ ((List.foldl ingestEntry (([] : List String), ([] : List Row))
        [entryA1, entryA2]).2.map Row.image).Nodup :=
  ⟨by decide, by decide⟩

/-- Claim C9 (amended): the computed delay is announced before the
suspension, but the next fetch target is selected and announced only
after the sleep (and before the invocation) — never before the loop
suspends. -/
theorem delay_announced_target_after_sleep (args : Args) (tags : List String)
    (meta : List Row) (files : List DirFile) (o : Oracle)
    (h : exOk (cycle args tags meta files o) = true) :
    (traceOf (cycle args tags meta files o)).take 2
      = [Event.announceDelay o.sleepTime, Event.sleep o.sleepTime]
  ∧ isAnnounceTargetEvent
      ((traceOf (cycle args tags meta files o)).getD 3 Event.scrapeOther) = true
  ∧ targetAnnouncedBeforeSleep (traceOf (cycle args tags meta files o)) = false := by
  obtain ⟨r, hr⟩ := (exOk_eq_true_iff _).mp h
  obtain ⟨t, h1, -, -, -, -⟩ := cycle_ok_shape args tags meta files o r hr
  have hsplit : r.trace = [Event.announceDelay o.sleepTime, Event.sleep o.sleepTime,
      Event.announceMax o.maxItems, Event.announceTarget t] ++ r.trace.drop 4 := by
    conv_lhs => rw [← List.take_append_drop 4 r.trace]
    rw [h1]
  rw [hr]
  simp only [traceOf]
  rw [hsplit]
  exact ⟨rfl, rfl, rfl⟩

/-- Witness for C9: a concrete completed cycle. -/
theorem delay_announced_target_after_sleep_witness :
    (traceOf (cycle argsTag ["cycling"] [] [] oracleAllOk)).take 2
      = [Event.announceDelay 7, Event.sleep 7]
  ∧ isAnnounceTargetEvent
      ((traceOf (cycle argsTag ["cycling"] [] [] oracleAllOk)).getD 3 Event.scrapeOther) = true
  ∧ targetAnnouncedBeforeSleep (traceOf (cycle argsTag ["cycling"] [] [] oracleAllOk)) = false :=
  delay_announced_target_after_sleep argsTag ["cycling"] [] [] oracleAllOk rfl

/-- Counterexample to C9 as stated: in a completed concrete cycle the
target announcement exists but occurs only after the sleep suspension. -/
theorem target_announced_after_sleep_counterexample :
    traceOf (cycle argsTag ["cycling"] [] [] oracleAllOk)
      = [Event.announceDelay 7, Event.sleep 7, Event.announceMax 3,
         Event.announceTarget "cycling", Event.authLogin, Event.scrapeTag "cycling"]
  ∧ targetAnnouncedBeforeSleep (traceOf (cycle argsTag ["cycling"] [] [] oracleAllOk)) = false
  ∧ (traceOf (cycle argsTag ["cycling"] [] [] oracleAllOk)).any isAnnounceTargetEvent = true :=
  ⟨rfl, rfl, rfl⟩

/-- Claim C10: the fetch invocation always uses the fixed output
directory and a single selected tag drawn from the registry, and the
command-line destination and username list have no influence whatsoever
on the cycle. -/
theorem fetch_config_forced (args : Args) (tags : List String) (meta : List Row)
    (files : List DirFile) (o : Oracle) (d : String) (u : List String)
    (h : exOk (cycle args tags meta files o) = true) :
    cycle { args with destination := d, usernames := u } tags meta files o
      = cycle args tags meta files o
  ∧ (okPart (cycle args tags meta files o)).map
      (fun r => (r.scraperArgs.destination, r.scraperArgs.usernames.length,
                 r.scraperArgs.usernames.all (fun t => r.savedTags.contains t)))
      = some ("../img/", 1, true) := by
  refine ⟨cycle_frame args tags meta files o d u, ?_⟩
  obtain ⟨r, hr⟩ := (exOk_eq_true_iff _).mp h
  obtain ⟨t, -, -, h3, h4, h5⟩ := cycle_ok_shape args tags meta files o r hr
  have h5m : t ∈ r.savedTags := by simpa using h5
  rw [hr]
  simp [okPart, h3, h4, h5m]

/-- Witness for C10: a concrete cycle with overwritten CLI values. -/
theorem fetch_config_forced_witness :
    cycle { argsTag with destination := "elsewhere", usernames := ["someone"] }
        ["cycling"] [] [] oracleAllOk
      = cycle argsTag ["cycling"] [] [] oracleAllOk
  ∧ (okPart (cycle argsTag ["cycling"] [] [] oracleAllOk)).map
      (fun r => (r.scraperArgs.destination, r.scraperArgs.usernames.length,
                 r.scraperArgs.usernames.all (fun t => r.savedTags.contains t)))
      = some ("../img/", 1, true) :=
  fetch_config_forced argsTag ["cycling"] [] [] oracleAllOk "elsewhere" ["someone"] rfl

end Scraper
